import Mathlib

/-!
Shallow embedding of `lazyass/__init__.py`, a Python 2 CouchDB client.

The HTTP transport and the standard JSON library are external to the
repository (the spec declares them non-goals), so each operation is
modelled at the point where the source consumes an HTTP response: a
function from the already-received `Response` (status code, body text,
decoded JSON body, headers) to either a result or a raised Python
exception. Where a claim speaks about the request an operation issues,
the request-forming part of the operation is modelled as a separate
function producing a `Request` (method and URL), mirroring the argument
expressions the source passes to `requests`.

Python 2 details that the claims hinge on are modelled explicitly:
- exceptions are an `Except PyErr` result; `PyErr` covers `CouchDBError`
  plus the built-in `TypeError`, `KeyError` and `ValueError` that the
  source can raise;
- `raise CouchDBError(...)` goes through `raiseCouch`, which models the
  constructor signature `__init__(self, status_code, body='')`: a call
  with no arguments (line 194 of the source) is itself a `TypeError`;
- the `%` string-format operator applied to the result of `map` (a list,
  not a tuple, in Python 2) binds the whole list to the first conversion
  specifier, so a format with two specifiers fails with `TypeError`
  (`Database.view`, line 167);
- `urllib.quote_plus` percent-encodes every byte outside `[A-Za-z0-9_.-]`
  and maps space to `+` (restricted here to ASCII input, which is all the
  source ever passes);
- `urlparse.urljoin` is modelled for the shapes the source uses: an
  absolute base URL joined with a plain relative path (no `.`/`..`
  segments, no query or fragment), which keeps the base up to and
  including its last slash and appends the relative part.
-/

/-- JSON values, the loosely-typed documents of the client. -/
inductive Json where
  | null : Json
  | bool (b : Bool) : Json
  | num (n : Int) : Json
  | str (s : String) : Json
  | arr (xs : List Json) : Json
  | obj (kvs : List (String × Json)) : Json

/-- Python exceptions the source can raise. -/
inductive PyErr where
  | couchDBError (status_code : Nat) (body : String)
  | typeError (msg : String)
  | keyError (key : String)
  | valueError (msg : String)
deriving DecidableEq

/-- An HTTP response as the `requests` library presents it to the client:
numeric status code, raw body text, the decoded JSON body (`r.json`), and
the response headers. -/
structure Response where
  status_code : Nat
  text : String
  json : Json
  headers : List (String × String)

/-- The request-forming side of an operation: HTTP method and target URL.
Request bodies are JSON dumps of caller data, delegated to the standard
JSON library and not constrained by any claim, so they are not modelled. -/
structure Request where
  method : String
  url : String
deriving DecidableEq

/-- Models `raise CouchDBError(status_code, body)` together with the
constructor signature `__init__(self, status_code, body='')`: passing no
`status_code` (the bare `CouchDBError()` call on line 194) raises
`TypeError` instead of producing a `CouchDBError`, and an omitted `body`
defaults to the empty string. -/
def raiseCouch {α : Type} (status_code : Option Nat) (body : Option String) : Except PyErr α :=
  match status_code with
  | none => .error (.typeError "__init__() takes at least 2 arguments (1 given)")
  | some s => .error (.couchDBError s (body.getD ""))

/-- Splits an absolute URL at its `://` separator: the scheme with the
separator, and the authority plus path after it. -/
def splitSchemeSep : List Char → Option (List Char × List Char)
  | ':' :: '/' :: '/' :: rest => some ([':', '/', '/'], rest)
  | c :: rest =>
    match splitSchemeSep rest with
    | some (a, b) => some (c :: a, b)
    | none => none
  | [] => none

/-- `urlparse.urljoin(base, rel)` for the shapes the source uses: `base`
absolute and `rel` a plain relative path (no `.`/`..` segments, no query
or fragment). The path of `base` is cut back to its last `/` (or a `/` is
added when the path is empty) and `rel` is appended. -/
def urljoin (base rel : String) : String :=
  match splitSchemeSep base.toList with
  | some (pre, hostpath) =>
    if hostpath.contains '/' then
      let keep := ((hostpath.reverse).dropWhile (fun c => c ≠ '/')).reverse
      String.mk (pre ++ keep ++ rel.toList)
    else
      String.mk (pre ++ hostpath ++ '/' :: rel.toList)
  | none =>
    let keep := (((base.toList).reverse).dropWhile (fun c => c ≠ '/')).reverse
    String.mk (keep ++ rel.toList)

/-- Uppercase hex digit of a value below 16. -/
def hexDigit (n : Nat) : Char :=
  if n < 10 then Char.ofNat (48 + n) else Char.ofNat (55 + n)

/-- `urllib.quote_plus` on one ASCII character: letters, digits and
`_ . -` pass through, space becomes `+`, everything else becomes `%XX`
with uppercase hex. -/
def quote_plus_char (c : Char) : List Char :=
  if c = ' ' then ['+']
  else if c.isAlphanum ∨ c = '_' ∨ c = '.' ∨ c = '-' then [c]
  else ['%', hexDigit (c.toNat / 16), hexDigit (c.toNat % 16)]

/-- `urllib.quote_plus` on an ASCII string. -/
def quote_plus (s : String) : String :=
  String.mk ((s.toList).flatMap quote_plus_char)

/-- Python subscript `j[key]` on a decoded JSON value: a `KeyError` when
the key is absent from an object, a `TypeError` when the value is not an
object at all. -/
def jsonIndex (j : Json) (key : String) : Except PyErr Json :=
  match j with
  | .obj kvs =>
    match kvs.find? (fun kv => kv.1 = key) with
    | some kv => .ok kv.2
    | none => .error (.keyError key)
  | _ => .error (.typeError "object is not subscriptable")

/-- A CouchDB server handle: the base URL and the info blob cached by the
constructor (`self._url`, `self._info`). The `requests` session lives in
the transport layer and carries no data the claims mention. -/
structure Server where
  url : String
  info : Json

/-- A database handle as built by `Database.__init__`: the owning server,
the database name, and the derived base URL
`urljoin(server._url, name + "/")`. -/
structure Database where
  server : Server
  name : String
  url : String

/-- `Database.__init__(self, server, name)`. -/
def Database.init (server : Server) (name : String) : Database :=
  { server := server, name := name, url := urljoin server.url (name ++ "/") }

/-- `Server.__init__`: GET on the base URL; only 200 succeeds, storing the
decoded info body; any other status raises `CouchDBError(status, text)`. -/
def Server.init_result (url : String) (r : Response) : Except PyErr Server :=
  if r.status_code ≠ 200 then raiseCouch (some r.status_code) (some r.text)
  else .ok { url := url, info := r.json }

/-- `Server.__iter__` (list database names): GET `_all_dbs`; on 200
iterates the decoded JSON body (a `TypeError` if it is not an array);
otherwise raises `CouchDBError(status, text)`. -/
def Server.all_dbs (r : Response) : Except PyErr (List Json) :=
  if r.status_code = 200 then
    match r.json with
    | .arr xs => .ok xs
    | _ => .error (.typeError "iteration over non-sequence")
  else raiseCouch (some r.status_code) (some r.text)

/-- The request `Server.__getitem__` issues: HEAD on the joined URL. -/
def Server.getitem_request (s : Server) (name : String) : Request :=
  { method := "HEAD", url := urljoin s.url name }

/-- `Server.__getitem__` (database lookup) response handling: 200 returns
a `Database` handle bound to this server; any other status raises
`CouchDBError(404, "no such database")` regardless of the actual status. -/
def Server.getitem (s : Server) (name : String) (r : Response) : Except PyErr Database :=
  if r.status_code = 200 then .ok (Database.init s name)
  else raiseCouch (some 404) (some "no such database")

/-- `Server.__delitem__` (delete database): DELETE; any status other than
200 raises `CouchDBError(status, text)`. -/
def Server.delitem (r : Response) : Except PyErr Unit :=
  if r.status_code ≠ 200 then raiseCouch (some r.status_code) (some r.text)
  else .ok ()

/-- `Server.config`: GET `_config`; decoded JSON on 200, otherwise
`CouchDBError(status, text)`. -/
def Server.config (r : Response) : Except PyErr Json :=
  if r.status_code = 200 then .ok r.json
  else raiseCouch (some r.status_code) (some r.text)

/-- The request `Server.create` issues: PUT on the joined URL. -/
def Server.create_request (s : Server) (name : String) : Request :=
  { method := "PUT", url := urljoin s.url name }

/-- `Server.create` response handling: 201 and 412 both return a
`Database` handle bound to this server; any other status raises
`CouchDBError(status, text)`. -/
def Server.create (s : Server) (name : String) (r : Response) : Except PyErr Database :=
  if r.status_code = 201 ∨ r.status_code = 412 then .ok (Database.init s name)
  else raiseCouch (some r.status_code) (some r.text)

/-- Skip JSON whitespace. -/
def skipWs : List Char → List Char
  | c :: rest => if c = ' ' ∨ c = '\n' ∨ c = '\t' ∨ c = '\r' then skipWs rest else c :: rest
  | [] => []

/-- One JSON string escape character. -/
def unescape (c : Char) : Option Char :=
  if c = '"' ∨ c = '\\' ∨ c = '/' then some c
  else if c = 'n' then some '\n'
  else if c = 't' then some '\t'
  else if c = 'r' then some '\r'
  else if c = 'b' then some (Char.ofNat 8)
  else if c = 'f' then some (Char.ofNat 12)
  else none

/-- Parse the body of a JSON string, after the opening quote. -/
def parseStringBody : List Char → Option (String × List Char)
  | [] => none
  | c :: rest =>
    if c = '"' then some ("", rest)
    else if c = '\\' then
      match rest with
      | e :: rest2 =>
        match unescape e with
        | some ec =>
          match parseStringBody rest2 with
          | some (s, r) => some (String.singleton ec ++ s, r)
          | none => none
        | none => none
      | [] => none
    else
      match parseStringBody rest with
      | some (s, r) => some (String.singleton c ++ s, r)
      | none => none

/-- Parse a run of decimal digits, `acc` seeded with digits read so far. -/
def parseDigits : List Char → Nat → Nat × List Char
  | c :: rest, acc =>
    if c.isDigit then parseDigits rest (acc * 10 + (c.toNat - 48)) else (acc, c :: rest)
  | [], acc => (acc, [])

mutual

/-- Fuel-indexed recursive-descent parser for the JSON fragment the
client exchanges (null, booleans, integers, strings, arrays, objects);
stands in for the standard `json` library the source delegates to. -/
def parseVal : Nat → List Char → Option (Json × List Char)
  | 0, _ => none
  | fuel + 1, cs =>
    match skipWs cs with
    | [] => none
    | c :: rest =>
      if c = 'n' then
        match rest with
        | 'u' :: 'l' :: 'l' :: r => some (.null, r)
        | _ => none
      else if c = 't' then
        match rest with
        | 'r' :: 'u' :: 'e' :: r => some (.bool true, r)
        | _ => none
      else if c = 'f' then
        match rest with
        | 'a' :: 'l' :: 's' :: 'e' :: r => some (.bool false, r)
        | _ => none
      else if c = '"' then
        match parseStringBody rest with
        | some (s, r) => some (.str s, r)
        | none => none
      else if c = '-' then
        match rest with
        | d :: r2 =>
          if d.isDigit then
            let (n, r3) := parseDigits r2 (d.toNat - 48)
            some (.num (-(n : Int)), r3)
          else none
        | [] => none
      else if c.isDigit then
        let (n, r3) := parseDigits rest (c.toNat - 48)
        some (.num (n : Int), r3)
      else if c = '[' then
        match skipWs rest with
        | ']' :: r => some (.arr [], r)
        | cs2 =>
          match parseArrElems fuel cs2 with
          | some (vs, r) => some (.arr vs, r)
          | none => none
      else if c = '{' then
        match skipWs rest with
        | '}' :: r => some (.obj [], r)
        | cs2 =>
          match parseObjElems fuel cs2 with
          | some (kvs, r) => some (.obj kvs, r)
          | none => none
      else none

/-- Comma-separated array elements, up to and including the closing
bracket. -/
def parseArrElems : Nat → List Char → Option (List Json × List Char)
  | 0, _ => none
  | fuel + 1, cs =>
    match parseVal fuel cs with
    | some (v, r) =>
      match skipWs r with
      | ']' :: r2 => some ([v], r2)
      | ',' :: r2 =>
        match parseArrElems fuel r2 with
        | some (vs, r3) => some (v :: vs, r3)
        | none => none
      | _ => none
    | none => none

/-- Comma-separated object members, up to and including the closing
brace. -/
def parseObjElems : Nat → List Char → Option (List (String × Json) × List Char)
  | 0, _ => none
  | fuel + 1, cs =>
    match skipWs cs with
    | '"' :: r =>
      match parseStringBody r with
      | some (k, r2) =>
        match skipWs r2 with
        | ':' :: r3 =>
          match parseVal fuel r3 with
          | some (v, r4) =>
            match skipWs r4 with
            | '}' :: r5 => some ([(k, v)], r5)
            | ',' :: r5 =>
              match parseObjElems fuel r5 with
              | some (kvs, r6) => some ((k, v) :: kvs, r6)
              | none => none
            | _ => none
          | none => none
        | _ => none
      | none => none
    | _ => none

end

/-- `json.loads` on a byte string: the whole input must be one JSON value
(plus whitespace), otherwise `ValueError`. -/
def json_loads (cs : List Char) : Except PyErr Json :=
  match parseVal (cs.length + 1) cs with
  | some (v, rest) =>
    if (skipWs rest).isEmpty then .ok v else .error (.valueError "Extra data")
  | none => .error (.valueError "No JSON object could be decoded")

/-- Python dictionary semantics of `doc` (a JSON document): an
association list with unique keys in insertion order. -/
abbrev Doc := List (String × Json)

/-- `d[k]` lookup that returns `none` for a missing key (`k in d` test and
access combined). -/
def dict_get : Doc → String → Option Json
  | [], _ => none
  | (k0, v0) :: rest, k => if k0 = k then some v0 else dict_get rest k

/-- `d[k] = v`: replaces the value in place when the key exists (keeping
its position), appends the pair otherwise. -/
def dict_set : Doc → String → Json → Doc
  | [], k, v => [(k, v)]
  | (k0, v0) :: rest, k, v =>
    if k0 = k then (k0, v) :: rest else (k0, v0) :: dict_set rest k v

/-- `d.update(other)`: `d[k] = v` for every pair of `other` in order. -/
def dict_update (d : Doc) (other : Doc) : Doc :=
  other.foldl (fun acc kv => dict_set acc kv.1 kv.2) d

/-- `Database.info`: GET on the database base URL; decoded JSON on 200,
otherwise `CouchDBError(status, text)`. -/
def Database.info_result (r : Response) : Except PyErr Json :=
  if r.status_code = 200 then .ok r.json
  else raiseCouch (some r.status_code) (some r.text)

/-- The request `Database.__getitem__` issues: GET on the joined,
percent-encoded document name. -/
def Database.getitem_request (db : Database) (docname : String) : Request :=
  { method := "GET", url := urljoin db.url (quote_plus docname) }

/-- `Database.__getitem__` (get document): decoded JSON on 200, otherwise
`CouchDBError(status, text)`. -/
def Database.getitem (r : Response) : Except PyErr Json :=
  if r.status_code = 200 then .ok r.json
  else raiseCouch (some r.status_code) (some r.text)

/-- `Database.getrev`: on 200 decodes the `Etag` response header with
`json.loads` (a `KeyError` if the header is missing); otherwise raises
`CouchDBError(status, text)`. -/
def Database.getrev (r : Response) : Except PyErr Json :=
  if r.status_code = 200 then
    match r.headers.find? (fun kv => kv.1 = "Etag") with
    | some kv => json_loads kv.2.toList
    | none => .error (.keyError "Etag")
  else raiseCouch (some r.status_code) (some r.text)

/-- The request `Database.__setitem__` issues: PUT on the joined,
percent-encoded id. -/
def Database.setitem_request (db : Database) (id : String) : Request :=
  { method := "PUT", url := urljoin db.url (quote_plus id) }

/-- `Database.__setitem__` (put document) response handling: on a status
other than 200 and 201 raises `CouchDBError(status, text)` with `doc`
untouched; otherwise performs
`doc.update({'_id': id, '_rev': result['rev']})` on the caller-supplied
dictionary and returns its updated state. -/
def Database.setitem (id : String) (doc : Doc) (r : Response) : Except PyErr Doc :=
  if r.status_code ≠ 200 ∧ r.status_code ≠ 201 then
    raiseCouch (some r.status_code) (some r.text)
  else
    match jsonIndex r.json "rev" with
    | .ok rev => .ok (dict_update doc [("_id", .str id), ("_rev", rev)])
    | .error e => .error e

/-- The request `Database.save` issues: POST to the base URL when `doc`
has no `_id` key, PUT to the joined, percent-encoded `_id` value
otherwise. A non-string `_id` would make `quote_plus` fail in Python;
the claims only exercise string ids. -/
def Database.save_request (db : Database) (doc : Doc) : Except PyErr Request :=
  match dict_get doc "_id" with
  | none => .ok { method := "POST", url := db.url }
  | some (.str s) => .ok { method := "PUT", url := urljoin db.url (quote_plus s) }
  | some _ => .error (.typeError "quote_plus expects a string")

/-- `Database.save` response handling: on a status other than 200 and 201
raises `CouchDBError(status, text)`; otherwise returns the pair
`(result['id'], result['rev'])` taken from the decoded response body. -/
def Database.save_result (r : Response) : Except PyErr (Json × Json) :=
  if r.status_code ≠ 200 ∧ r.status_code ≠ 201 then
    raiseCouch (some r.status_code) (some r.text)
  else
    match jsonIndex r.json "id" with
    | .ok id =>
      match jsonIndex r.json "rev" with
      | .ok rev => .ok (id, rev)
      | .error e => .error e
    | .error e => .error e

/-- `Database.delete(id, rev)` response handling: on 200 returns the new
revision `result['rev']`; otherwise raises `CouchDBError(status, text)`. -/
def Database.delete_result (r : Response) : Except PyErr Json :=
  if r.status_code = 200 then jsonIndex r.json "rev"
  else raiseCouch (some r.status_code) (some r.text)

/-- `s.split(sep, 1)`: at most one split, at the first occurrence of the
separator; the remainder is kept whole. -/
def pySplitFirst (sep : Char) : List Char → List (List Char)
  | [] => [[]]
  | c :: rest =>
    if c = sep then [[], rest]
    else
      match pySplitFirst sep rest with
      | seg :: segs => (c :: seg) :: segs
      | [] => [[c]]

/-- The Python 2 `%` string-format operator with an explicit list of
values to substitute for the `%s` specifiers: too few values raise
`TypeError`, and so do leftover values. -/
def pyFormat : List Char → List String → Except PyErr (List Char)
  | [], [] => .ok []
  | [], _ :: _ => .error (.typeError "not all arguments converted during string formatting")
  | '%' :: 's' :: rest, v :: vs =>
    match pyFormat rest vs with
    | .ok out => .ok (v.toList ++ out)
    | .error e => .error e
  | '%' :: 's' :: _rest, [] => .error (.typeError "not enough arguments for format string")
  | c :: rest, vs =>
    match pyFormat rest vs with
    | .ok out => .ok (c :: out)
    | .error e => .error e

/-- `repr` of a Python string (single-quoted). -/
def pyStrRepr (s : String) : String :=
  let q := String.singleton (Char.ofNat 39)
  q ++ s ++ q

/-- `repr`/`str` of a Python list of strings. -/
def pyReprList (xs : List String) : String :=
  "[" ++ String.intercalate ", " (xs.map pyStrRepr) ++ "]"

/-- The `%` operator with a non-tuple right operand (here: the list that
`map` returns in Python 2): the whole value binds the first specifier
only, as its `str` representation. -/
def pyFormatNonTuple (fmt : List Char) (vrepr : String) : Except PyErr (List Char) :=
  pyFormat fmt [vrepr]

/-- The URL that `Database.view` targets, lines 164 to 167 of the source:
`_all_docs` goes to `{base}/_all_docs`; any other view name is split at
the first `/`, each part percent-encoded with `quote_plus`, and pushed
through `'_design/%s/_view/%s' % map(quote_plus, viewname.split('/', 1))`.
In Python 2 `map` returns a list, not a tuple, so the format operator
receives a single value for its two specifiers and raises `TypeError`. -/
def Database.view_url (db : Database) (viewname : String) : Except PyErr String :=
  if viewname = "_all_docs" then .ok (urljoin db.url "_all_docs")
  else
    let parts := (pySplitFirst '/' viewname.toList).map (fun cs => quote_plus (String.mk cs))
    match pyFormatNonTuple ("_design/%s/_view/%s".toList) (pyReprList parts) with
    | .ok formatted => .ok (urljoin db.url (String.mk formatted))
    | .error e => .error e

/-- `Database.view` response handling: decoded JSON on 200, otherwise
`CouchDBError(status, text)`; identical for the GET (no keys) and POST
(bulk keys) variants. -/
def Database.view_result (r : Response) : Except PyErr Json :=
  if r.status_code = 200 then .ok r.json
  else raiseCouch (some r.status_code) (some r.text)

/-- `Database.__iter__` (enumerate document ids): runs the `_all_docs`
view on the same response and yields `row['id']` for each row of
`results['rows']`. -/
def Database.iter (r : Response) : Except PyErr (List Json) :=
  match Database.view_result r with
  | .error e => .error e
  | .ok results =>
    match jsonIndex results "rows" with
    | .error e => .error e
    | .ok (.arr rows) => rows.mapM (fun row => jsonIndex row "id")
    | .ok _ => .error (.typeError "iteration over non-sequence")

/-- The byte-accumulation loop of `Database._continuous`, lines 180 to
193 of the source: read one byte at a time; a newline flushes the buffer
as one event when it is non-empty; end of stream flushes a final
non-empty buffer and stops. Returns the buffers handed to `json.loads`,
in order. -/
def continuousSegments : List Char → List Char → List (List Char)
  | buf, [] => if buf.length > 0 then [buf] else []
  | buf, c :: rest =>
    if c = '\n' then
      if buf.length > 0 then buf :: continuousSegments [] rest
      else continuousSegments buf rest
    else continuousSegments (buf ++ [c]) rest

/-- Sequential decoding of the flushed buffers: `json.loads` on each in
order, a decode error aborting the iteration. -/
def decodeAll : List (List Char) → Except PyErr (List Json)
  | [] => .ok []
  | seg :: rest =>
    match json_loads seg with
    | .ok v =>
      match decodeAll rest with
      | .ok vs => .ok (v :: vs)
      | .error e => .error e
    | .error e => .error e

/-- The events `Database._continuous` yields on a 200 response body:
`json.loads` of each flushed buffer, in order. -/
def continuousEvents (stream : List Char) : Except PyErr (List Json) :=
  decodeAll (continuousSegments [] stream)

/-- `Database._continuous`: on 200 streams the decoded newline-delimited
events; on any other status the generator body reaches the bare
`raise CouchDBError()` call of line 194, whose missing required
`status_code` argument raises `TypeError`. -/
def Database._continuous (r : Response) (stream : List Char) : Except PyErr (List Json) :=
  if r.status_code = 200 then continuousEvents stream
  else raiseCouch none none

/-- The polling branch of `Database.changes`: decoded JSON on 200,
otherwise `CouchDBError(status, text)`. -/
def Database.changes_poll (r : Response) : Except PyErr Json :=
  if r.status_code = 200 then .ok r.json
  else raiseCouch (some r.status_code) (some r.text)

/-- The two shapes `Database.changes` can return: a single decoded batch
(polling) or the lazy event sequence (continuous). -/
inductive ChangesResult where
  | batch (j : Json)
  | events (es : List Json)

/-- `Database.changes` dispatch on `options['feed']`: the continuous feed
goes through `_continuous` over the streamed body, everything else is a
single polled GET. -/
def Database.changes (feed : Option String) (r : Response) (stream : List Char) :
    Except PyErr ChangesResult :=
  if feed = some "continuous" then
    match Database._continuous r stream with
    | .ok es => .ok (.events es)
    | .error e => .error e
  else
    match Database.changes_poll r with
    | .ok j => .ok (.batch j)
    | .error e => .error e

/-- Plain newline splitting (every `\n` is a boundary, empty segments
kept), the reference against which the accumulation loop is proved:
`splitNl "a\nb"` is `["a", "b"]` and `splitNl "a\n"` is `["a", ""]`. -/
def splitNl : List Char → List (List Char)
  | [] => [[]]
  | c :: rest =>
    if c = '\n' then [] :: splitNl rest
    else
      match splitNl rest with
      | seg :: segs => (c :: seg) :: segs
      | [] => [[c]]

/-- Spec-side definition for the refinement claim about document
enumeration, following the spec words: "the projection of each row's
`id` field from the rows of `View("_all_docs")`, in the same
server-returned order". -/
def allDocsIdProjection (viewResult : Json) : Except PyErr (List Json) :=
  match jsonIndex viewResult "rows" with
  | .ok (.arr rows) => rows.mapM (fun row => jsonIndex row "id")
  | .ok _ => .error (.typeError "iteration over non-sequence")
  | .error e => .error e

/-- The non-empty segments of a segment list, order preserved: the
reference notion of "non-empty newline-separated segments" for the
continuous feed. -/
def dropEmpty : List (List Char) → List (List Char)
  | [] => []
  | seg :: rest => if seg.length > 0 then seg :: dropEmpty rest else dropEmpty rest

/-- `s.split(sep)` without a limit: every occurrence of the separator
splits, empty segments kept. -/
def pySplitAll (sep : Char) : List Char → List (List Char)
  | [] => [[]]
  | c :: rest =>
    if c = sep then [] :: pySplitAll sep rest
    else
      match pySplitAll sep rest with
      | seg :: segs => (c :: seg) :: segs
      | [] => [[c]]

/-- `'/'.join(parts)` over character lists. -/
def joinSlash : List (List Char) → List Char
  | [] => []
  | [seg] => seg
  | seg :: rest => seg ++ '/' :: joinSlash rest

/-- The expression the body of `_quote_slash` computes, line 13 of the
source: quote each `/`-separated part with `quote_plus` and rejoin with
`/`, so that separators survive and each segment is encoded on its own. -/
def quote_slash_expr (s : String) : String :=
  String.mk (joinSlash ((pySplitAll '/' s.toList).map
    (fun cs => (quote_plus (String.mk cs)).toList)))

/-- `_quote_slash`, lines 9 to 13 of the source: the docstring promises
to quote a URL part leaving `/` unquoted, and the body computes exactly
`quote_slash_expr`, but the function has no `return` statement, so every
call returns `None`; the function is also never called anywhere in the
source. -/
def _quote_slash (s : String) : Option String :=
  let _ := quote_slash_expr s
  none

/-- C4: database lookup issues a HEAD request; a 200 response yields a
`Database` handle bound to this server under the given name, and every
other status raises `CouchDBError(404, "no such database")` regardless
of the actual status code. -/
theorem lookup_head_200_or_404 (s : Server) (name : String) (r : Response) :
    (Server.getitem_request s name).method = "HEAD" ∧
    (r.status_code = 200 →
      Server.getitem s name r = .ok (Database.init s name) ∧
      (Database.init s name).server = s ∧ (Database.init s name).name = name) ∧
    (r.status_code ≠ 200 →
      Server.getitem s name r = .error (.couchDBError 404 "no such database")) := by
  refine ⟨rfl, fun h => ⟨?_, rfl, rfl⟩, fun h => ?_⟩
  · simp [Server.getitem, h]
  · simp [Server.getitem, h, raiseCouch]

/-- Witness for C4 at concrete inputs: a 200 response yields the bound
handle, a 500 response yields the coerced 404 error. -/
theorem lookup_head_200_or_404_witness :
    Server.getitem ⟨"http://h:5984/", Json.null⟩ "db" ⟨200, "", Json.null, []⟩ =
      .ok (Database.init ⟨"http://h:5984/", Json.null⟩ "db") ∧
    Server.getitem ⟨"http://h:5984/", Json.null⟩ "db" ⟨500, "oops", Json.null, []⟩ =
      .error (.couchDBError 404 "no such database") :=
  ⟨((lookup_head_200_or_404 ⟨"http://h:5984/", Json.null⟩ "db" ⟨200, "", Json.null, []⟩).2.1 rfl).1,
   (lookup_head_200_or_404 ⟨"http://h:5984/", Json.null⟩ "db" ⟨500, "oops", Json.null, []⟩).2.2 (by decide)⟩

/-- C1 counterexample: database lookup on a 500 response with body
`"oops"` raises `CouchDBError(404, "no such database")`, not a
`CouchDBError` carrying the status 500 and body `"oops"` of the
response. -/
theorem lookup_error_not_exact :
    Server.getitem ⟨"http://h:5984/", Json.null⟩ "db" ⟨500, "oops", Json.null, []⟩ =
      .error (.couchDBError 404 "no such database") ∧
    PyErr.couchDBError 404 "no such database" ≠ PyErr.couchDBError 500 "oops" :=
  ⟨rfl, by decide⟩

/-- C1 (amended): every operation raises `CouchDBError` carrying exactly
the status code and body text of the offending response, except database
lookup, which raises `CouchDBError(404, "no such database")` for every
non-200 status regardless of the actual response. Covered: construction,
list databases, delete database, config, info, get document, get
revision, view, polling changes (success set 200), delete (200), put
document and save (200/201), create database (201/412), and lookup. -/
theorem unexpected_status_raises_exact (url name id : String) (s : Server) (doc : Doc)
    (r : Response) :
    (r.status_code ≠ 200 →
      Server.init_result url r = .error (.couchDBError r.status_code r.text) ∧
      Server.all_dbs r = .error (.couchDBError r.status_code r.text) ∧
      Server.delitem r = .error (.couchDBError r.status_code r.text) ∧
      Server.config r = .error (.couchDBError r.status_code r.text) ∧
      Database.info_result r = .error (.couchDBError r.status_code r.text) ∧
      Database.getitem r = .error (.couchDBError r.status_code r.text) ∧
      Database.getrev r = .error (.couchDBError r.status_code r.text) ∧
      Database.delete_result r = .error (.couchDBError r.status_code r.text) ∧
      Database.view_result r = .error (.couchDBError r.status_code r.text) ∧
      Database.changes_poll r = .error (.couchDBError r.status_code r.text)) ∧
    (r.status_code ≠ 200 ∧ r.status_code ≠ 201 →
      Database.setitem id doc r = .error (.couchDBError r.status_code r.text) ∧
      Database.save_result r = .error (.couchDBError r.status_code r.text)) ∧
    (r.status_code ≠ 201 ∧ r.status_code ≠ 412 →
      Server.create s name r = .error (.couchDBError r.status_code r.text)) ∧
    (r.status_code ≠ 200 →
      Server.getitem s name r = .error (.couchDBError 404 "no such database")) := by
  refine ⟨fun h => ?_, fun h => ?_, fun h => ?_, fun h => ?_⟩
  · exact ⟨by simp [Server.init_result, h, raiseCouch],
      by simp [Server.all_dbs, h, raiseCouch],
      by simp [Server.delitem, h, raiseCouch],
      by simp [Server.config, h, raiseCouch],
      by simp [Database.info_result, h, raiseCouch],
      by simp [Database.getitem, h, raiseCouch],
      by simp [Database.getrev, h, raiseCouch],
      by simp [Database.delete_result, h, raiseCouch],
      by simp [Database.view_result, h, raiseCouch],
      by simp [Database.changes_poll, h, raiseCouch]⟩
  · exact ⟨by simp [Database.setitem, h.1, h.2, raiseCouch],
      by simp [Database.save_result, h.1, h.2, raiseCouch]⟩
  · simp [Server.create, h.1, h.2, raiseCouch]
  · simp [Server.getitem, h, raiseCouch]

/-- Witness for the amended C1 at a concrete 500 response with body
`"boom"`: config and save report exactly 500 and `"boom"`, create
reports them too, lookup reports the coerced 404. -/
theorem unexpected_status_raises_exact_witness :
    Server.config ⟨500, "boom", Json.null, []⟩ = .error (.couchDBError 500 "boom") ∧
    Database.save_result ⟨500, "boom", Json.null, []⟩ = .error (.couchDBError 500 "boom") ∧
    Server.create ⟨"http://h:5984/", Json.null⟩ "db" ⟨500, "boom", Json.null, []⟩ =
      .error (.couchDBError 500 "boom") ∧
    Server.getitem ⟨"http://h:5984/", Json.null⟩ "db" ⟨500, "boom", Json.null, []⟩ =
      .error (.couchDBError 404 "no such database") :=
  ⟨((unexpected_status_raises_exact "http://h:5984/" "db" "d" ⟨"http://h:5984/", Json.null⟩ []
      ⟨500, "boom", Json.null, []⟩).1 (by decide)).2.2.2.1,
   ((unexpected_status_raises_exact "http://h:5984/" "db" "d" ⟨"http://h:5984/", Json.null⟩ []
      ⟨500, "boom", Json.null, []⟩).2.1 (by decide)).2,
   (unexpected_status_raises_exact "http://h:5984/" "db" "d" ⟨"http://h:5984/", Json.null⟩ []
      ⟨500, "boom", Json.null, []⟩).2.2.1 (by decide),
   (unexpected_status_raises_exact "http://h:5984/" "db" "d" ⟨"http://h:5984/", Json.null⟩ []
      ⟨500, "boom", Json.null, []⟩).2.2.2 (by decide)⟩

/-- C8: create database issues a PUT; both 201 and 412 responses return a
`Database` handle bound to this server, any other status raises
`CouchDBError` with exactly the response status and body; in particular
two calls on the same name answered 201 then 412 return a usable handle
both times, and the same handle. -/
theorem create_201_412_succeed (s : Server) (name : String) (r r1 r2 : Response) :
    (Server.create_request s name).method = "PUT" ∧
    (r.status_code = 201 ∨ r.status_code = 412 →
      Server.create s name r = .ok (Database.init s name)) ∧
    (r.status_code ≠ 201 ∧ r.status_code ≠ 412 →
      Server.create s name r = .error (.couchDBError r.status_code r.text)) ∧
    (r1.status_code = 201 → r2.status_code = 412 →
      Server.create s name r1 = .ok (Database.init s name) ∧
      Server.create s name r2 = .ok (Database.init s name)) := by
  refine ⟨rfl, fun h => ?_, fun h => ?_, fun h1 h2 => ⟨?_, ?_⟩⟩
  · simp [Server.create, h]
  · simp [Server.create, h.1, h.2, raiseCouch]
  · simp [Server.create, h1]
  · simp [Server.create, h2]

/-- Witness for C8 at concrete inputs: a 201 response and then a 412
response on the same name both return the bound handle. -/
theorem create_201_412_succeed_witness :
    Server.create ⟨"http://h:5984/", Json.null⟩ "db" ⟨201, "", Json.null, []⟩ =
      .ok (Database.init ⟨"http://h:5984/", Json.null⟩ "db") ∧
    Server.create ⟨"http://h:5984/", Json.null⟩ "db" ⟨412, "", Json.null, []⟩ =
      .ok (Database.init ⟨"http://h:5984/", Json.null⟩ "db") :=
  (create_201_412_succeed ⟨"http://h:5984/", Json.null⟩ "db" ⟨201, "", Json.null, []⟩
    ⟨201, "", Json.null, []⟩ ⟨412, "", Json.null, []⟩).2.2.2 rfl rfl

/-- C6: save issues a POST to the database base URL when the document has
no `_id` key and a PUT to the joined, percent-encoded `_id` value when it
does; a 200 or 201 response returns the `(id, rev)` pair taken from the
response body, any other status raises `CouchDBError`. -/
theorem save_post_put_dispatch (db : Database) (doc : Doc) (id : String) (r : Response)
    (idv rev : Json) :
    (dict_get doc "_id" = none →
      Database.save_request db doc = .ok ⟨"POST", db.url⟩) ∧
    (dict_get doc "_id" = some (.str id) →
      Database.save_request db doc = .ok ⟨"PUT", urljoin db.url (quote_plus id)⟩) ∧
    (r.status_code = 200 ∨ r.status_code = 201 →
      jsonIndex r.json "id" = .ok idv → jsonIndex r.json "rev" = .ok rev →
      Database.save_result r = .ok (idv, rev)) ∧
    (r.status_code ≠ 200 ∧ r.status_code ≠ 201 →
      Database.save_result r = .error (.couchDBError r.status_code r.text)) := by
  refine ⟨fun h => ?_, fun h => ?_, fun h hid hrev => ?_, fun h => ?_⟩
  · simp [Database.save_request, h]
  · simp [Database.save_request, h]
  · rcases h with h | h <;> simp [Database.save_result, h, hid, hrev]
  · simp [Database.save_result, h.1, h.2, raiseCouch]

/-- Witness for C6 at concrete inputs: a document without `_id` goes by
POST to the base URL, one with `_id` `"a b"` goes by PUT to the encoded
id, and a 201 response with body ids returns the pair from the body. -/
theorem save_post_put_dispatch_witness :
    Database.save_request (Database.init ⟨"http://h:5984/", Json.null⟩ "db") [("k", Json.num 1)] =
      .ok ⟨"POST", "http://h:5984/db/"⟩ ∧
    Database.save_request (Database.init ⟨"http://h:5984/", Json.null⟩ "db")
      [("_id", Json.str "a b")] = .ok ⟨"PUT", "http://h:5984/db/a+b"⟩ ∧
    Database.save_result
      ⟨201, "", Json.obj [("ok", Json.bool true), ("id", Json.str "a b"), ("rev", Json.str "1-x")], []⟩ =
      .ok (Json.str "a b", Json.str "1-x") :=
  ⟨(save_post_put_dispatch (Database.init ⟨"http://h:5984/", Json.null⟩ "db") [("k", Json.num 1)]
      "a b" ⟨201, "", Json.null, []⟩ Json.null Json.null).1 rfl,
   (save_post_put_dispatch (Database.init ⟨"http://h:5984/", Json.null⟩ "db")
      [("_id", Json.str "a b")] "a b" ⟨201, "", Json.null, []⟩ Json.null Json.null).2.1 rfl,
   (save_post_put_dispatch (Database.init ⟨"http://h:5984/", Json.null⟩ "db") []
      "a b"
      ⟨201, "", Json.obj [("ok", Json.bool true), ("id", Json.str "a b"), ("rev", Json.str "1-x")], []⟩
      (Json.str "a b") (Json.str "1-x")).2.2.1 (Or.inr rfl) rfl rfl⟩

/-- Lookup after a single Python dictionary assignment `d[k] = v`: the
assigned key reads back `v`, every other key is unchanged. -/
theorem dict_get_set (d : Doc) (k k2 : String) (v : Json) :
    dict_get (dict_set d k v) k2 = if k2 = k then some v else dict_get d k2 := by
  induction d with
  | nil =>
    simp only [dict_set, dict_get]
    by_cases h : k = k2
    · simp [h]
    · simp [h, Ne.symm h]
  | cons kv rest ih =>
    obtain ⟨k0, v0⟩ := kv
    by_cases h0 : k0 = k
    · subst h0
      simp only [dict_set, if_pos rfl, dict_get]
      by_cases h : k0 = k2
      · simp [h]
      · simp [h, Ne.symm h]
    · simp only [dict_set, if_neg h0, dict_get]
      by_cases h : k0 = k2
      · subst h
        simp [h0]
      · simp [h, ih]

/-- C7: put document on a 200 or 201 response updates the caller-supplied
document in place via `doc.update(...)`: afterwards `_id` reads back the
given id, `_rev` reads back the revision from the response body, and
every other key reads back exactly as before; on any other status it
raises `CouchDBError` with the response status and body, without touching
the document. -/
theorem put_document_updates_in_place (id : String) (doc : Doc) (r : Response) (rev : Json) :
    (r.status_code = 200 ∨ r.status_code = 201 → jsonIndex r.json "rev" = .ok rev →
      Database.setitem id doc r =
        .ok (dict_update doc [("_id", .str id), ("_rev", rev)]) ∧
      dict_get (dict_update doc [("_id", .str id), ("_rev", rev)]) "_id" = some (.str id) ∧
      dict_get (dict_update doc [("_id", .str id), ("_rev", rev)]) "_rev" = some rev ∧
      ∀ k, k ≠ "_id" → k ≠ "_rev" →
        dict_get (dict_update doc [("_id", .str id), ("_rev", rev)]) k = dict_get doc k) ∧
    (r.status_code ≠ 200 ∧ r.status_code ≠ 201 →
      Database.setitem id doc r = .error (.couchDBError r.status_code r.text)) := by
  have hupd : dict_update doc [("_id", Json.str id), ("_rev", rev)] =
      dict_set (dict_set doc "_id" (.str id)) "_rev" rev := by
    simp [dict_update, List.foldl]
  refine ⟨fun h hrev => ⟨?_, ?_, ?_, ?_⟩, fun h => ?_⟩
  · rcases h with h | h <;> simp [Database.setitem, h, hrev]
  · simp [hupd, dict_get_set]
  · simp [hupd, dict_get_set]
  · intro k hk1 hk2
    simp [hupd, dict_get_set, hk1, hk2]
  · simp [Database.setitem, h.1, h.2, raiseCouch]

/-- Witness for C7 at concrete inputs: a 201 response with revision
`"2-b"` rewrites `_id` and `_rev` and keeps the other key of the
document; a 409 response raises `CouchDBError(409, "conflict")`. -/
theorem put_document_updates_in_place_witness :
    Database.setitem "x" [("k", Json.num 7), ("_rev", Json.str "1-a")]
      ⟨201, "", Json.obj [("rev", Json.str "2-b")], []⟩ =
      .ok (dict_update [("k", Json.num 7), ("_rev", Json.str "1-a")]
        [("_id", .str "x"), ("_rev", Json.str "2-b")]) ∧
    dict_get (dict_update [("k", Json.num 7), ("_rev", Json.str "1-a")]
      [("_id", .str "x"), ("_rev", Json.str "2-b")]) "k" =
      dict_get [("k", Json.num 7), ("_rev", Json.str "1-a")] "k" ∧
    Database.setitem "x" [("k", Json.num 7)] ⟨409, "conflict", Json.null, []⟩ =
      .error (.couchDBError 409 "conflict") :=
  ⟨((put_document_updates_in_place "x" [("k", Json.num 7), ("_rev", Json.str "1-a")]
      ⟨201, "", Json.obj [("rev", Json.str "2-b")], []⟩ (Json.str "2-b")).1
      (Or.inr rfl) rfl).1,
   ((put_document_updates_in_place "x" [("k", Json.num 7), ("_rev", Json.str "1-a")]
      ⟨201, "", Json.obj [("rev", Json.str "2-b")], []⟩ (Json.str "2-b")).1
      (Or.inr rfl) rfl).2.2.2 "k" (by decide) (by decide),
   (put_document_updates_in_place "x" [("k", Json.num 7)] ⟨409, "conflict", Json.null, []⟩
      Json.null).2 (by decide)⟩

/-- C9: enumerating document ids yields exactly the projection of each
row's `id` field from the rows of the `_all_docs` view result, in the
same server-returned order. -/
theorem enumerate_ids_matches_view (r : Response) (v : Json) :
    Database.view_result r = .ok v → Database.iter r = allDocsIdProjection v := by
  intro h
  have h200 : r.status_code = 200 := by
    by_contra hne
    simp [Database.view_result, hne, raiseCouch] at h
  have hv : v = r.json := by
    simp [Database.view_result, h200] at h
    exact h.symm
  subst hv
  cases hrows : jsonIndex r.json "rows" with
  | error e => simp [Database.iter, h, allDocsIdProjection, hrows]
  | ok jv => cases jv <;> simp [Database.iter, h, allDocsIdProjection, hrows]

/-- Witness for C9 at a concrete two-row `_all_docs` response: the
enumeration equals the row projection, and both are the two ids in
server order. -/
theorem enumerate_ids_matches_view_witness :
    Database.iter
      ⟨200, "",
        Json.obj [("total_rows", Json.num 2),
          ("rows", Json.arr [Json.obj [("id", Json.str "a"), ("key", Json.str "a")],
            Json.obj [("id", Json.str "b"), ("key", Json.str "b")]])], []⟩ =
      allDocsIdProjection
        (Json.obj [("total_rows", Json.num 2),
          ("rows", Json.arr [Json.obj [("id", Json.str "a"), ("key", Json.str "a")],
            Json.obj [("id", Json.str "b"), ("key", Json.str "b")]])]) ∧
    allDocsIdProjection
      (Json.obj [("total_rows", Json.num 2),
        ("rows", Json.arr [Json.obj [("id", Json.str "a"), ("key", Json.str "a")],
          Json.obj [("id", Json.str "b"), ("key", Json.str "b")]])]) =
      .ok [Json.str "a", Json.str "b"] :=
  ⟨enumerate_ids_matches_view
      ⟨200, "",
        Json.obj [("total_rows", Json.num 2),
          ("rows", Json.arr [Json.obj [("id", Json.str "a"), ("key", Json.str "a")],
            Json.obj [("id", Json.str "b"), ("key", Json.str "b")]])], []⟩
      (Json.obj [("total_rows", Json.num 2),
        ("rows", Json.arr [Json.obj [("id", Json.str "a"), ("key", Json.str "a")],
          Json.obj [("id", Json.str "b"), ("key", Json.str "b")]])]) rfl,
   rfl⟩

/-- C2: the continuous changes feed on a 200 response turns the byte
stream `b"\x7b\"seq\":1\x7d\n\x7b\"seq\":2\x7d\n"` into exactly the two
decoded objects in order; a stream with a trailing unterminated line
`b"\x7b\"seq\":3\x7d"` decodes and yields that line as a final element
before ending, both when it follows the two terminated lines and when it
stands alone. -/
theorem continuous_stream_decodes_lines :
    Database.changes (some "continuous") ⟨200, "", Json.null, []⟩
        ("\x7b\"seq\":1\x7d\n\x7b\"seq\":2\x7d\n".toList) =
      .ok (.events [Json.obj [("seq", Json.num 1)], Json.obj [("seq", Json.num 2)]]) ∧
    Database.changes (some "continuous") ⟨200, "", Json.null, []⟩
        ("\x7b\"seq\":1\x7d\n\x7b\"seq\":2\x7d\n\x7b\"seq\":3\x7d".toList) =
      .ok (.events [Json.obj [("seq", Json.num 1)], Json.obj [("seq", Json.num 2)],
        Json.obj [("seq", Json.num 3)]]) ∧
    Database.changes (some "continuous") ⟨200, "", Json.null, []⟩
        ("\x7b\"seq\":3\x7d".toList) =
      .ok (.events [Json.obj [("seq", Json.num 3)]]) :=
  ⟨rfl, rfl, rfl⟩

/-- C5: the continuous changes feed on a non-200 initial response fails
before any event is produced, but with a `TypeError`, not a
`CouchDBError`: the generator body reaches `raise CouchDBError()` whose
required `status_code` argument is missing. -/
theorem continuous_non200_raises_type_error :
    Database.changes (some "continuous") ⟨404, "missing", Json.null, []⟩ [] =
      .error (.typeError "__init__() takes at least 2 arguments (1 given)") ∧
    PyErr.typeError "__init__() takes at least 2 arguments (1 given)" ≠
      PyErr.couchDBError 404 "missing" :=
  ⟨rfl, by decide⟩

/-- C3: executing any view whose name is not `_all_docs` never builds the
`_design/.../_view/...` URL: `map` returns a list in Python 2, so the
two-specifier format string raises `TypeError`; the `_all_docs` branch
works; and even the intended split-then-encode would percent-encode a
`/` in the part after the first split, since `quote_plus` maps `/` to
`%2F`. -/
theorem view_design_name_type_error :
    Database.view_url (Database.init ⟨"http://h:5984/", Json.null⟩ "db") "design/view" =
      .error (.typeError "not enough arguments for format string") ∧
    Database.view_url (Database.init ⟨"http://h:5984/", Json.null⟩ "db") "_all_docs" =
      .ok "http://h:5984/db/_all_docs" ∧
    quote_plus "v/x" = "v%2Fx" ∧
    _quote_slash "a b/c" = none ∧
    quote_slash_expr "a b/c" = "a+b/c" :=
  ⟨rfl, rfl, rfl, rfl, rfl⟩

/-- Newline splitting always yields at least one segment. -/
theorem splitNl_ne_nil (s : List Char) : splitNl s ≠ [] := by
  cases s with
  | nil => simp [splitNl]
  | cons c rest =>
    simp only [splitNl]
    by_cases h : c = '\n'
    · simp [h]
    · simp only [if_neg h]
      cases hs : splitNl rest <;> simp

/-- The accumulation loop of the continuous feed, with an arbitrary
buffer already accumulated, equals plain newline splitting with the
buffer prepended to the first segment and every empty segment dropped. -/
theorem continuousSegments_splitNl (s : List Char) :
    ∀ buf seg segs, splitNl s = seg :: segs →
      continuousSegments buf s = dropEmpty ((buf ++ seg) :: segs) := by
  induction s with
  | nil =>
    intro buf seg segs h
    simp only [splitNl] at h
    injection h with h1 h2
    subst h1; subst h2
    by_cases hb : buf.length > 0
    · simp [continuousSegments, dropEmpty, hb]
    · simp [continuousSegments, dropEmpty, hb]
  | cons c rest ih =>
    intro buf seg segs h
    by_cases hc : c = '\n'
    · subst hc
      simp only [splitNl, if_pos rfl] at h
      injection h with h1 h2
      subst h1
      obtain ⟨seg2, segs2, hrest⟩ : ∃ a b, splitNl rest = a :: b := by
        cases hs : splitNl rest with
        | nil => exact absurd hs (splitNl_ne_nil rest)
        | cons a b => exact ⟨a, b, rfl⟩
      have hin := ih [] seg2 segs2 hrest
      simp only [List.nil_append] at hin
      by_cases hb : buf.length > 0
      · have hred : continuousSegments buf ('\n' :: rest) =
            buf :: continuousSegments [] rest := by
          simp [continuousSegments, hb]
        rw [hred, hin, ← h2, hrest]
        simp [dropEmpty, hb]
      · have hbuf : buf = [] := by
          cases buf with
          | nil => rfl
          | cons x xs => simp at hb
        subst hbuf
        have hred : continuousSegments ([] : List Char) ('\n' :: rest) =
            continuousSegments [] rest := by
          simp [continuousSegments]
        rw [hred, hin, ← h2, hrest]
        simp [dropEmpty]
    · have hsplit : splitNl (c :: rest) =
          match splitNl rest with
          | seg2 :: segs2 => (c :: seg2) :: segs2
          | [] => [[c]] := by
        simp [splitNl, hc]
      obtain ⟨seg2, segs2, hrest⟩ : ∃ a b, splitNl rest = a :: b := by
        cases hs : splitNl rest with
        | nil => exact absurd hs (splitNl_ne_nil rest)
        | cons a b => exact ⟨a, b, rfl⟩
      rw [hsplit, hrest] at h
      injection h with h1 h2
      subst h2
      have hin := ih (buf ++ [c]) seg2 segs2 hrest
      simp only [continuousSegments, if_neg hc]
      rw [hin, ← h1]
      simp [List.append_assoc]

/-- The empty buffer is never among the flushed segments. -/
theorem dropEmpty_not_mem (l : List (List Char)) : [] ∉ dropEmpty l := by
  induction l with
  | nil => simp [dropEmpty]
  | cons seg rest ih =>
    simp only [dropEmpty]
    by_cases h : seg.length > 0
    · simp only [if_pos h]
      intro hmem
      rcases List.mem_cons.mp hmem with he | hm
      · rw [← he] at h; simp at h
      · exact ih hm
    · simpa [if_neg h] using ih

/-- Sequential decoding preserves the number of segments when every
segment decodes. -/
theorem decodeAll_ok_length :
    ∀ (l : List (List Char)) (es : List Json), decodeAll l = .ok es → es.length = l.length := by
  intro l
  induction l with
  | nil =>
    intro es h
    simp only [decodeAll] at h
    injection h with h1
    subst h1
    rfl
  | cons seg rest ih =>
    intro es h
    simp only [decodeAll] at h
    cases hj : json_loads seg with
    | error e => rw [hj] at h; exact Except.noConfusion h
    | ok v =>
      rw [hj] at h
      cases hr : decodeAll rest with
      | error e => rw [hr] at h; exact Except.noConfusion h
      | ok vs =>
        rw [hr] at h
        injection h with h1
        subst h1
        simp [ih vs hr]

/-- C10: in the continuous feed an empty line produces no event: the
buffers handed to `json.loads` are exactly the non-empty
newline-separated segments of the stream (so the empty buffer is never
decoded), and when every segment decodes, the number of yielded events
equals the number of non-empty segments. -/
theorem continuous_skips_empty_lines (s : List Char) (es : List Json) :
    continuousSegments [] s = dropEmpty (splitNl s) ∧
    [] ∉ continuousSegments [] s ∧
    (continuousEvents s = .ok es → es.length = (dropEmpty (splitNl s)).length) := by
  obtain ⟨seg, segs, hs⟩ : ∃ a b, splitNl s = a :: b := by
    cases hsp : splitNl s with
    | nil => exact absurd hsp (splitNl_ne_nil s)
    | cons a b => exact ⟨a, b, rfl⟩
  have hmain : continuousSegments [] s = dropEmpty (splitNl s) := by
    rw [continuousSegments_splitNl s [] seg segs hs, hs]
    simp
  refine ⟨hmain, ?_, ?_⟩
  · rw [hmain]
    exact dropEmpty_not_mem (splitNl s)
  · intro h
    have := decodeAll_ok_length (continuousSegments [] s) es h
    rw [hmain] at this
    exact this

/-- Witness for C10 on a concrete stream with a leading heartbeat line,
a doubled newline and a trailing unterminated line: two events come out,
matching the two non-empty segments, and no empty buffer is flushed. -/
theorem continuous_skips_empty_lines_witness :
    ([Json.obj [("a", Json.num 1)], Json.obj [("b", Json.num 2)]].length =
      (dropEmpty (splitNl ("\n\x7b\"a\":1\x7d\n\n\x7b\"b\":2\x7d".toList))).length) ∧
    [] ∉ continuousSegments [] ("\n\x7b\"a\":1\x7d\n\n\x7b\"b\":2\x7d".toList) :=
  ⟨(continuous_skips_empty_lines ("\n\x7b\"a\":1\x7d\n\n\x7b\"b\":2\x7d".toList)
      [Json.obj [("a", Json.num 1)], Json.obj [("b", Json.num 2)]]).2.2 rfl,
   (continuous_skips_empty_lines ("\n\x7b\"a\":1\x7d\n\n\x7b\"b\":2\x7d".toList) []).2.1⟩
